import Mathlib

/-!
Shallow embedding of the Podcast-Studio-A core: the model routing layer
(`src/services/modelRouter`, embedded from `src/unnamed/part_000`), the retry
policy of `src/services/geminiService.ts`, the voice catalogue of
`src/unnamed/part_002`, and the production pipeline `handlePodcastProduction`
of `src/unnamed/part_003`.  Machine floats are modelled as exact rationals,
asynchronous provider calls as explicit outcome sequences, and the effect
trace (progress reports, sleeps) as explicit event lists.
-/

namespace PodcastStudio

/-- JS truthiness of an optional string (`!!s`): `false` for `undefined` and
for the empty string, `true` otherwise. -/
def truthy : Option String → Bool
  | Option.none => false
  | Option.some s => !(s == "")

/-- The `Provider` union type of `src/types.ts`. -/
inductive Provider where
  | gemini | pollinations | openai | mistral
deriving DecidableEq, Repr

/-- A model capability, from `ModelConfig.capabilities` in `src/types.ts`. -/
inductive Capability where
  | text | image | audio | video
deriving DecidableEq, Repr

/-- The `requiresAuth` field values of `ModelConfig` in `src/types.ts`. -/
inductive AuthReq where
  | user | app | none
deriving DecidableEq, Repr

/-- `ModelConfig` of `src/types.ts`; the two optional cost fields are exact
rationals. -/
structure ModelConfig where
  id : String
  provider : Provider
  name : String
  capabilities : List Capability
  costPerMtok : Option ℚ
  costPerRequest : Option ℚ
  rateLimit : ℕ
  isActive : Bool
  requiresAuth : AuthReq
deriving DecidableEq, Repr

/-- `MODEL_REGISTRY["gemini-3-pro-preview"]` from `src/unnamed/part_002`. -/
def gemini_3_pro_preview : ModelConfig :=
  { id := "gemini-3-pro-preview", provider := Provider.gemini,
    name := "Gemini 3 Pro (Reasoning)", capabilities := [Capability.text, Capability.audio],
    costPerMtok := some (7/2), costPerRequest := Option.none,
    rateLimit := 100, isActive := true, requiresAuth := AuthReq.user }

/-- `MODEL_REGISTRY["gemini-3-flash-preview"]` from `src/unnamed/part_002`. -/
def gemini_3_flash_preview : ModelConfig :=
  { id := "gemini-3-flash-preview", provider := Provider.gemini,
    name := "Gemini 3 Flash (Fast)", capabilities := [Capability.text, Capability.audio],
    costPerMtok := some (3/40), costPerRequest := Option.none,
    rateLimit := 1000, isActive := true, requiresAuth := AuthReq.user }

/-- `MODEL_REGISTRY["pollinations-script-paid"]` from `src/unnamed/part_002`. -/
def pollinations_script_paid : ModelConfig :=
  { id := "pollinations-script-paid", provider := Provider.pollinations,
    name := "Pollinations (Paid - GPT-4o)", capabilities := [Capability.text],
    costPerMtok := Option.none, costPerRequest := some (1/500),
    rateLimit := 500, isActive := true, requiresAuth := AuthReq.user }

/-- `MODEL_REGISTRY["pollinations-script-free"]` from `src/unnamed/part_002`. -/
def pollinations_script_free : ModelConfig :=
  { id := "pollinations-script-free", provider := Provider.pollinations,
    name := "Pollinations (Free)", capabilities := [Capability.text],
    costPerMtok := Option.none, costPerRequest := some 0,
    rateLimit := 30, isActive := true, requiresAuth := AuthReq.none }

/-- `MODEL_REGISTRY["pollinations-image-flux"]` from `src/unnamed/part_002`. -/
def pollinations_image_flux : ModelConfig :=
  { id := "pollinations-image-flux", provider := Provider.pollinations,
    name := "Flux Pro (High Quality)", capabilities := [Capability.image],
    costPerMtok := Option.none, costPerRequest := some (3/100),
    rateLimit := 100, isActive := true, requiresAuth := AuthReq.user }

/-- `MODEL_REGISTRY["pollinations-image-free"]` from `src/unnamed/part_002`. -/
def pollinations_image_free : ModelConfig :=
  { id := "pollinations-image-free", provider := Provider.pollinations,
    name := "Pollinations Free (Turbo)", capabilities := [Capability.image],
    costPerMtok := Option.none, costPerRequest := some 0,
    rateLimit := 50, isActive := true, requiresAuth := AuthReq.none }

/-- `MODEL_REGISTRY["gemini-native-audio"]` from `src/unnamed/part_002`. -/
def gemini_native_audio : ModelConfig :=
  { id := "gemini-native-audio", provider := Provider.gemini,
    name := "Gemini Native Audio (Premium)", capabilities := [Capability.audio],
    costPerMtok := Option.none, costPerRequest := some (1/100000),
    rateLimit := 200, isActive := true, requiresAuth := AuthReq.user }

/-- `MODEL_REGISTRY["edge-neural-voices"]` from `src/unnamed/part_002`. -/
def edge_neural_voices : ModelConfig :=
  { id := "edge-neural-voices", provider := Provider.openai,
    name := "Microsoft Edge Neural (Free)", capabilities := [Capability.audio],
    costPerMtok := Option.none, costPerRequest := some 0,
    rateLimit := 1000, isActive := true, requiresAuth := AuthReq.none }

/-- The `MODEL_REGISTRY` record of `src/unnamed/part_002` as a partial map. -/
def MODEL_REGISTRY : String → Option ModelConfig := fun key =>
  if key = "gemini-3-pro-preview" then some gemini_3_pro_preview
  else if key = "gemini-3-flash-preview" then some gemini_3_flash_preview
  else if key = "pollinations-script-paid" then some pollinations_script_paid
  else if key = "pollinations-script-free" then some pollinations_script_free
  else if key = "pollinations-image-flux" then some pollinations_image_flux
  else if key = "pollinations-image-free" then some pollinations_image_free
  else if key = "gemini-native-audio" then some gemini_native_audio
  else if key = "edge-neural-voices" then some edge_neural_voices
  else Option.none

/-- `UserApiKeys` of `src/types.ts` (all fields optional in the source). -/
structure UserApiKeys where
  pollinationsKey : Option String
  openaiKey : Option String
  mistralKey : Option String
deriving DecidableEq, Repr

/-- The task kind accepted by `ModelRouter.selectModel`; `other` stands for a
value outside the declared union, reaching the function's `throw`. -/
inductive TaskType where
  | script_generation | image_generation | audio_synthesis
  | other (s : String)
deriving DecidableEq, Repr

/-- The string a `TaskType` interpolates into `Unsupported task: ${task.type}`. -/
def TaskType.str : TaskType → String
  | TaskType.script_generation => "script_generation"
  | TaskType.image_generation => "image_generation"
  | TaskType.audio_synthesis => "audio_synthesis"
  | TaskType.other s => s

/-- The quality tier union `"fast" | "balanced" | "premium"`. -/
inductive Quality where
  | fast | balanced | premium
deriving DecidableEq, Repr

/-- The task argument of `ModelRouter.selectModel`.  `requiresReasoning` is an
optional boolean in the source and is only read for its truthiness, so it is
modelled as a `Bool` (`false` covering both `false` and `undefined`). -/
structure Task where
  type : TaskType
  quality : Quality
  requiresReasoning : Bool
deriving DecidableEq, Repr

/-- `RoutingDecision` of `src/unnamed/part_000`. -/
structure RoutingDecision where
  modelId : String
  model : ModelConfig
  reason : String
  estimatedCost : ℚ
deriving DecidableEq, Repr

/-- `ModelRouter.selectModel` of `src/unnamed/part_000`, lines 15-92: the
three routing blocks in source order; the trailing `throw` becomes the
`Except.error` branch. -/
def ModelRouter.selectModel (task : Task) (userKeys : UserApiKeys) :
    Except String RoutingDecision :=
  let hasPollinationsKey := truthy userKeys.pollinationsKey
  if task.type = TaskType.script_generation then
    if task.quality = Quality.premium ∨ task.requiresReasoning = true then
      Except.ok
        { modelId := "gemini-3-pro-preview", model := gemini_3_pro_preview,
          reason := "Advanced reasoning required or premium quality selected (Gemini 3 Pro)",
          estimatedCost := 1/200 }
    else if task.quality = Quality.balanced ∧ hasPollinationsKey = true then
      Except.ok
        { modelId := "pollinations-script-paid", model := pollinations_script_paid,
          reason := "Utilizing Pollinations GPT-4o for balanced production",
          estimatedCost := 1/500 }
    else
      Except.ok
        { modelId := "pollinations-script-free", model := pollinations_script_free,
          reason := "Standard fast script generation (Free tier)",
          estimatedCost := 0 }
  else if task.type = TaskType.image_generation then
    if task.quality = Quality.premium ∧ hasPollinationsKey = true then
      Except.ok
        { modelId := "pollinations-image-flux", model := pollinations_image_flux,
          reason := "High-fidelity visuals via Flux Pro",
          estimatedCost := 3/100 }
    else
      Except.ok
        { modelId := "pollinations-image-free", model := pollinations_image_free,
          reason := "Free image generation using Turbo model",
          estimatedCost := 0 }
  else if task.type = TaskType.audio_synthesis then
    if task.quality = Quality.premium then
      Except.ok
        { modelId := "gemini-native-audio", model := gemini_native_audio,
          reason := "Premium multi-speaker synthesis (Gemini 2.5 Native)",
          estimatedCost := 1/100000 }
    else
      Except.ok
        { modelId := "edge-neural-voices", model := edge_neural_voices,
          reason := "Efficient Edge neural voices for standard production",
          estimatedCost := 0 }
  else
    Except.error ("Unsupported task: " ++ task.type.str)

/-- Boolean prefix test on character lists. -/
def charsPrefix : List Char → List Char → Bool
  | [], _ => true
  | _ :: _, [] => false
  | a :: as, b :: bs => a == b && charsPrefix as bs

/-- Boolean contiguous-subsequence test on character lists. -/
def charsContain (needle : List Char) : List Char → Bool
  | [] => needle.isEmpty
  | c :: t => charsPrefix needle (c :: t) || charsContain needle t

/-- JS `String.prototype.includes(sub)` on `s`. -/
def strIncludes (s sub : String) : Bool := charsContain sub.toList s.toList

/-- JS `String.prototype.toLowerCase` (character-wise lowering). -/
def lowerStr (s : String) : String := String.mk (s.toList.map Char.toLower)

/-- A JS error value as `withRetry` observes it: its optional `.message`
property and its `JSON.stringify` serialization. -/
structure GError where
  message : Option String
  serialized : String
deriving DecidableEq, Repr

/-- The rate-limit classification of `GeminiService.withRetry`
(`src/services/geminiService.ts`, line 22): the message contains `429`, or the
serialized form contains `429` or `RESOURCE_EXHAUSTED`. -/
def isRateLimit (e : GError) : Bool :=
  (match e.message with
    | some m => strIncludes m "429"
    | Option.none => false)
  || strIncludes e.serialized "429" || strIncludes e.serialized "RESOURCE_EXHAUSTED"

/-- Outcome of one attempt of the wrapped asynchronous call `fn`. -/
inductive CallResult (α : Type) where
  | ok (v : α)
  | err (e : GError)
deriving DecidableEq, Repr

/-- `GeminiService.withRetry` of `src/services/geminiService.ts`, lines 17-29.
The wrapped call is modelled as `fn : ℕ → CallResult α` giving the outcome of
each successive attempt; the returned list is the sequence of `sleep`
durations in order (the delays awaited before each retry).  The source's
`if (isRateLimit && retries > 0)` is rendered as the rate-limit test followed
by a match on `retries`; on the recursive call the delay doubles. -/
def GeminiService.withRetry {α : Type} (fn : ℕ → CallResult α)
    (attempt retries delay : ℕ) : List ℕ × CallResult α :=
  match fn attempt with
  | CallResult.ok v => ([], CallResult.ok v)
  | CallResult.err e =>
    if isRateLimit e then
      match retries with
      | 0 => ([], CallResult.err e)
      | r + 1 =>
        let p := GeminiService.withRetry fn (attempt + 1) r (delay * 2)
        (delay :: p.1, p.2)
    else ([], CallResult.err e)

/-- `withRetry` at its default configuration (`retries = 3`, `delay = 2000`),
starting from the first attempt. -/
def GeminiService.withRetryDefault {α : Type} (fn : ℕ → CallResult α) :
    List ℕ × CallResult α :=
  GeminiService.withRetry fn 0 3 2000

/-- `TTSEngine` of `src/types.ts`. -/
inductive TTSEngine where
  | BROWSER | GEMINI
deriving DecidableEq, Repr

/-- Voice gender from `VoiceProfile` in `src/types.ts`. -/
inductive Gender where
  | Male | Female | Neutral
deriving DecidableEq, Repr

/-- `VoiceProfile` of `src/types.ts`. -/
structure VoiceProfile where
  id : String
  name : String
  voiceName : String
  gender : Gender
  description : String
  engine : TTSEngine
  sampleText : Option String
deriving DecidableEq, Repr

/-- The `VOICES` catalogue of `src/unnamed/part_002`. -/
def VOICES : List VoiceProfile :=
  [ { id := "pro-1", name := "Alex", voiceName := "Kore", gender := Gender.Male,
      description := "Authoritative", engine := TTSEngine.GEMINI,
      sampleText := some "Welcome to the future of podcasting." },
    { id := "pro-2", name := "Jordan", voiceName := "Puck", gender := Gender.Female,
      description := "Bright", engine := TTSEngine.GEMINI,
      sampleText := some "It's a beautiful day to explore new ideas." },
    { id := "pro-3", name := "Sam", voiceName := "Charon", gender := Gender.Male,
      description := "Intellectual", engine := TTSEngine.GEMINI,
      sampleText := some "Deep dives into the mysteries of the universe." },
    { id := "free-1", name := "Andrew", voiceName := "en-US-AndrewNeural", gender := Gender.Male,
      description := "Edge Male", engine := TTSEngine.BROWSER,
      sampleText := some "Streaming from the edge of technology." },
    { id := "free-2", name := "Emma", voiceName := "en-US-EmmaNeural", gender := Gender.Female,
      description := "Edge Female", engine := TTSEngine.BROWSER,
      sampleText := some "Let's talk about the world today." },
    { id := "free-3", name := "Sonia", voiceName := "en-GB-SoniaNeural", gender := Gender.Female,
      description := "British", engine := TTSEngine.BROWSER,
      sampleText := some "Fancy a bit of intelligent conversation?" } ]

/-- The voice-resolution steps of `src/unnamed/part_003` (identical in
`synthesizeSegment`, lines 212-218, and `handlePodcastProduction`, lines
339-344): the engine family is fixed by whether the routing decision's
provider is `gemini`; the mapped voice is looked up in `VOICES` with the
engine constraint; then the first same-family voice whose name contains the
speaker label case-insensitively; then the first same-family voice.  The
speaker-to-voice map `state.speakerVoiceMap` is an association list. -/
def resolveVoice (isGeminiEngine : Bool) (speakerVoiceMap : List (String × String))
    (speaker : String) : Option VoiceProfile :=
  let target := if isGeminiEngine then TTSEngine.GEMINI else TTSEngine.BROWSER
  let currentEngineVoices := VOICES.filter (fun v => v.engine == target)
  let mappedVoiceId := (speakerVoiceMap.find? (fun p => p.1 == speaker)).map Prod.snd
  match VOICES.find? (fun v => some v.id == mappedVoiceId && v.engine == target) with
  | some v => some v
  | Option.none =>
    match currentEngineVoices.find? (fun v => strIncludes (lowerStr v.name) (lowerStr speaker)) with
    | some v => some v
    | Option.none => currentEngineVoices.head?

/-- `UserTier` of `src/types.ts`. -/
inductive UserTier where
  | FREE | PRO | ENTERPRISE
deriving DecidableEq, Repr

/-- `ExportFormat` of `src/types.ts`. -/
inductive ExportFormat where
  | WAV | MP3 | OGG
deriving DecidableEq, Repr

/-- A decoded audio buffer, reduced to its exact duration in seconds together
with a provenance tag standing for its sample data. -/
structure AudioBuffer where
  dur : ℚ
  src : String
deriving DecidableEq, Repr

/-- Modelled from the spec: `createWatermarkBuffer` of `services/audioEngine`
(imported by `src/unnamed/part_003` but not under `src/`) produces "a fixed
short watermark buffer"; only its fixedness matters here. -/
def createWatermarkBuffer : AudioBuffer := { dur := 1, src := "watermark" }

/-- Modelled from the spec: `concatenateAudioBuffers` of `services/audioEngine`
(not under `src/`) appends buffers in order and "for n buffers with durations
d₁…dₙ, the resulting buffer's duration equals Σdᵢ". -/
def concatenateAudioBuffers (bufs : List AudioBuffer) : AudioBuffer :=
  { dur := (bufs.map (fun b => b.dur)).sum, src := "concat" }

/-- An encoded byte stream tagged with the encoder that produced it. -/
inductive EncodedBlob where
  | mp3 (b : AudioBuffer)
  | wav (b : AudioBuffer)
deriving DecidableEq, Repr

/-- Modelled from the spec: `audioBufferToMp3` of `services/audioEngine` (not
under `src/`) is a deterministic lossy encoder, so it is one constructor
applied to the input buffer. -/
def audioBufferToMp3 (b : AudioBuffer) : EncodedBlob := EncodedBlob.mp3 b

/-- Modelled from the spec: `audioBufferToWav` of `services/audioEngine` (not
under `src/`) is the deterministic uncompressed PCM/WAV encoder. -/
def audioBufferToWav (b : AudioBuffer) : EncodedBlob := EncodedBlob.wav b

/-- The `speaker`/`text` payload of one segment entering a production run. -/
structure SegIn where
  id : String
  speaker : String
  text : String
deriving DecidableEq, Repr

/-- A segment after the run assigns `seg.startTime = currentTotalTime` and
`seg.duration = buffer.duration` (`src/unnamed/part_003`, lines 355-356);
`voiceId` records the voice the run resolved for it. -/
structure SegOut where
  id : String
  speaker : String
  text : String
  startTime : ℚ
  duration : ℚ
  voiceId : String
deriving DecidableEq, Repr

/-- A default `SegOut`, used only as the `List.getD` fallback in statements. -/
def dummySegOut : SegOut :=
  { id := "", speaker := "", text := "", startTime := 0, duration := 0, voiceId := "" }

/-- One observable effect of a production run: a progress report
(`setProgress`, percent value) or the completion of the i-th synthesis. -/
inductive RunEvent where
  | progress (percent : ℕ)
  | synthDone (idx : ℕ)
deriving DecidableEq, Repr

/-- `Math.round((completed / total) * 90)` (`src/unnamed/part_003`, line 330)
in exact arithmetic: `⌊90·c/t + 1/2⌋` for non-negative arguments. -/
def progressPercent (completed total : ℕ) : ℕ :=
  (180 * completed + total) / (2 * total)

/-- The inputs `handlePodcastProduction` reads from component state. -/
structure RunInput where
  tier : UserTier
  quality : Quality
  exportFormat : ExportFormat
  apiKeys : UserApiKeys
  introText : String
  outroText : String
  speakerVoiceMap : List (String × String)
  segments : List SegIn
deriving DecidableEq, Repr

/-- The ordered segment list of a run (`src/unnamed/part_003`, lines 323-327):
an intro segment, the script segments in order, then an outro segment. -/
def allSegmentsOf (inp : RunInput) : List SegIn :=
  { id := "intro", speaker := "System", text := inp.introText } ::
    inp.segments ++ [{ id := "outro", speaker := "System", text := inp.outroText }]

/-- The per-segment loop of `handlePodcastProduction` (`src/unnamed/part_003`,
lines 329-358).  `synth i` is the outcome of the i-th synthesis engine call
(`generateBrowserSpeech` or `generateSpeech`+`decodeGeminiAudio`, external
effects); `vf` resolves the voice passed to that call.  Per iteration: a
progress report is emitted, the segment is synthesized, and on success the
segment receives `startTime := acc` and `duration := buf.dur` before the
accumulated time and buffer list grow; the first failure aborts the loop,
discarding the accumulated segments and buffers. -/
def prodLoop (synth : ℕ → Except String AudioBuffer) (vf : SegIn → Option VoiceProfile) :
    List SegIn → ℕ → ℕ → ℚ →
    List RunEvent × Except String (List SegOut × List AudioBuffer)
  | [], _, _, _ => ([], Except.ok ([], []))
  | seg :: rest, i, total, acc =>
    let ev := RunEvent.progress (progressPercent i total)
    match synth i with
    | Except.error e => ([ev], Except.error e)
    | Except.ok buf =>
      let out : SegOut :=
        { id := seg.id, speaker := seg.speaker, text := seg.text,
          startTime := acc, duration := buf.dur,
          voiceId := ((vf seg).map (fun v => v.id)).getD "" }
      let p := prodLoop synth vf rest (i + 1) total (acc + buf.dur)
      (ev :: RunEvent.synthDone i :: p.1,
       Except.map (fun q => (out :: q.1, buf :: q.2)) p.2)

/-- The artifact set of a successful run: the ordered segments with assigned
timing, the buffer list handed to `concatenateAudioBuffers` (watermark
included), the concatenated master buffer, the encoded blob, and the timed
segments handed to `generateSRT`. -/
structure RunResult where
  orderedSegments : List SegOut
  buffers : List AudioBuffer
  master : AudioBuffer
  blob : EncodedBlob
  srtSegments : List SegOut
deriving DecidableEq, Repr

/-- `handlePodcastProduction` of `src/unnamed/part_003`, lines 304-399: select
one audio-synthesis routing decision for the run, loop over
intro + script segments + outro, then append the watermark for the FREE tier,
concatenate, and encode (the MP3 encoder for both `MP3` and `OGG`, the WAV
encoder otherwise).  The returned trace lists the progress reports (those of
the loop, then the 95% mastering and 100% completion reports on success); the
catch handler's UI reset and the deferred progress reset are not modelled.  On
any failure the accumulated state is dropped and only the error is returned. -/
def runProduction (inp : RunInput) (synth : ℕ → Except String AudioBuffer) :
    List RunEvent × Except String RunResult :=
  match ModelRouter.selectModel
      { type := TaskType.audio_synthesis, quality := inp.quality, requiresReasoning := false }
      inp.apiKeys with
  | Except.error e => ([], Except.error e)
  | Except.ok ttsDecision =>
    let vf : SegIn → Option VoiceProfile := fun s =>
      resolveVoice (ttsDecision.model.provider == Provider.gemini) inp.speakerVoiceMap s.speaker
    let p := prodLoop synth vf (allSegmentsOf inp) 0 (allSegmentsOf inp).length 0
    match p.2 with
    | Except.error e => (p.1, Except.error e)
    | Except.ok ob =>
      let withWatermark :=
        if inp.tier = UserTier.FREE then ob.2 ++ [createWatermarkBuffer] else ob.2
      let fullBuffer := concatenateAudioBuffers withWatermark
      let finalBlob :=
        if inp.exportFormat = ExportFormat.MP3 ∨ inp.exportFormat = ExportFormat.OGG then
          audioBufferToMp3 fullBuffer
        else audioBufferToWav fullBuffer
      (p.1 ++ [RunEvent.progress 95, RunEvent.progress 100],
       Except.ok
         { orderedSegments := ob.1, buffers := withWatermark, master := fullBuffer,
           blob := finalBlob, srtSegments := ob.1 })

/-- The routing decision `selectModel` returns for an `audio_synthesis` task
(premium quality ⇒ Gemini native audio, otherwise Edge neural voices). -/
def audioRoutingOf (q : Quality) : RoutingDecision :=
  if q = Quality.premium then
    { modelId := "gemini-native-audio", model := gemini_native_audio,
      reason := "Premium multi-speaker synthesis (Gemini 2.5 Native)",
      estimatedCost := 1/100000 }
  else
    { modelId := "edge-neural-voices", model := edge_neural_voices,
      reason := "Efficient Edge neural voices for standard production",
      estimatedCost := 0 }

/-- The segment records a fully successful loop produces, with cumulative
start times: closed form for the `List SegOut` component of `prodLoop`. -/
def mkOuts (vf : SegIn → Option VoiceProfile) (b : ℕ → AudioBuffer) :
    List SegIn → ℕ → ℚ → List SegOut
  | [], _, _ => []
  | s :: rest, i, acc =>
    { id := s.id, speaker := s.speaker, text := s.text, startTime := acc,
      duration := (b i).dur, voiceId := ((vf s).map (fun v => v.id)).getD "" }
      :: mkOuts vf b rest (i + 1) (acc + (b i).dur)

/-- The voice-resolution procedure exactly as the specification words it:
restrict candidates to the engine family implied by the routing decision, use
the speaker's explicit mapping if it belongs to the restricted list, else the
first restricted candidate whose display name contains the speaker label
case-insensitively, else the first restricted candidate. -/
def specVoiceResolution (isHostedFamily : Bool) (speakerVoiceMap : List (String × String))
    (speaker : String) : Option VoiceProfile :=
  let restricted := VOICES.filter
    (fun v => v.engine == (if isHostedFamily then TTSEngine.GEMINI else TTSEngine.BROWSER))
  let mapped := (speakerVoiceMap.find? (fun p => p.1 == speaker)).map Prod.snd
  match restricted.find? (fun v => some v.id == mapped) with
  | some v => some v
  | Option.none =>
    match restricted.find? (fun v => strIncludes (lowerStr v.name) (lowerStr speaker)) with
    | some v => some v
    | Option.none => restricted.head?

/-- A one-segment production input used to instantiate run theorems. -/
def exInput : RunInput :=
  { tier := UserTier.FREE, quality := Quality.fast, exportFormat := ExportFormat.MP3,
    apiKeys := { pollinationsKey := Option.none, openaiKey := Option.none,
                 mistralKey := Option.none },
    introText := "Welcome to Podcast Studio AI.",
    outroText := "Stay curious, and thanks for listening!",
    speakerVoiceMap := [("Host", "pro-1"), ("Guest", "pro-2")],
    segments := [{ id := "s1", speaker := "Host", text := "Hello" }] }

/-- Concrete per-segment buffers used to instantiate run theorems. -/
def exBuf : ℕ → AudioBuffer := fun i => { dur := (i : ℚ) + 1, src := "seg" }

/-- A synthesis behaviour that always succeeds, with `exBuf` outcomes. -/
def exSynth : ℕ → Except String AudioBuffer := fun i => Except.ok (exBuf i)

/-- A synthesis behaviour that always fails. -/
def exSynthFail : ℕ → Except String AudioBuffer :=
  fun _ => Except.error "Synthesis produced no audio payload."

/-- A rate-limited provider error (marker in the message). -/
def rlErr : GError := { message := some "Error 429: rate limited", serialized := "\x7b\x7d" }

/-- A provider error whose message carries the resource-exhaustion marker but
whose JSON serialization (as for a JS `Error` instance) is `"{}"`. -/
def exhaustedMsgErr : GError :=
  { message := some "RESOURCE_EXHAUSTED: quota exceeded", serialized := "\x7b\x7d" }

/-- A call behaviour failing rate-limited twice and then succeeding. -/
def exCalls : ℕ → CallResult ℕ
  | 0 => CallResult.err rlErr
  | 1 => CallResult.err rlErr
  | _ => CallResult.ok 7

lemma find?_filter_eq {α : Type} (p q : α → Bool) :
    ∀ l : List α, (l.filter q).find? p = l.find? (fun a => p a && q a) := by
  intro l
  induction l with
  | nil => simp
  | cons a t ih =>
    by_cases hq : q a = true
    · by_cases hp : p a = true
      · simp [List.filter_cons, hq, List.find?_cons, hp]
      · simp only [List.filter_cons, hq, if_true, List.find?_cons, hp, Bool.false_and,
          Bool.and_eq_true]
        simp [hp, ih]
    · simp only [List.filter_cons, hq]
      simp [List.find?_cons, hq, ih]

lemma selectModel_audio (q : Quality) (keys : UserApiKeys) :
    ModelRouter.selectModel
        { type := TaskType.audio_synthesis, quality := q, requiresReasoning := false } keys
      = Except.ok (audioRoutingOf q) := by
  cases q <;> rfl

lemma mkOuts_length (vf : SegIn → Option VoiceProfile) (b : ℕ → AudioBuffer) :
    ∀ (segs : List SegIn) (i : ℕ) (acc : ℚ),
      (mkOuts vf b segs i acc).length = segs.length := by
  intro segs
  induction segs with
  | nil => intro i acc; rfl
  | cons s rest ih => intro i acc; simp [mkOuts, ih]

lemma mkOuts_getD (vf : SegIn → Option VoiceProfile) (b : ℕ → AudioBuffer) :
    ∀ (segs : List SegIn) (i : ℕ) (acc : ℚ) (k : ℕ), k < segs.length →
      ((mkOuts vf b segs i acc).getD k dummySegOut).duration = (b (i + k)).dur ∧
      ((mkOuts vf b segs i acc).getD k dummySegOut).startTime
        = acc + (((mkOuts vf b segs i acc).take k).map (fun o => o.duration)).sum := by
  intro segs
  induction segs with
  | nil => intro i acc k hk; simp at hk
  | cons s rest ih =>
    intro i acc k hk
    match k with
    | 0 => simp [mkOuts]
    | k + 1 =>
      have hk' : k < rest.length := by simpa using hk
      have h := ih (i + 1) (acc + (b i).dur) k hk'
      constructor
      · rw [show i + (k + 1) = (i + 1) + k by omega]
        simpa [mkOuts] using h.1
      · have h2 := h.2
        simp only [mkOuts, List.getD_cons_succ, List.take_succ_cons, List.map_cons,
          List.sum_cons]
        rw [h2]
        ring

lemma prodLoop_ok_eq (synth : ℕ → Except String AudioBuffer) (vf : SegIn → Option VoiceProfile)
    (b : ℕ → AudioBuffer) :
    ∀ (segs : List SegIn) (i total : ℕ) (acc : ℚ),
      (∀ j, j < segs.length → synth (i + j) = Except.ok (b (i + j))) →
      prodLoop synth vf segs i total acc =
        ((List.range segs.length).flatMap
            (fun j => [RunEvent.progress (progressPercent (i + j) total),
                       RunEvent.synthDone (i + j)]),
         Except.ok (mkOuts vf b segs i acc,
           (List.range segs.length).map (fun j => b (i + j)))) := by
  intro segs
  induction segs with
  | nil => intro i total acc _; simp [prodLoop, mkOuts]
  | cons s rest ih =>
    intro i total acc h
    have h0 : synth i = Except.ok (b i) := by simpa using h 0 (by simp)
    have hrest : ∀ j, j < rest.length → synth ((i + 1) + j) = Except.ok (b ((i + 1) + j)) := by
      intro j hj
      have hx := h (j + 1) (by simp only [List.length_cons]; omega)
      rwa [show i + (j + 1) = (i + 1) + j by omega] at hx
    simp only [prodLoop, h0]
    rw [ih (i + 1) total (acc + (b i).dur) hrest]
    simp [mkOuts, List.range_succ_eq_map, List.flatMap_map, List.map_map, Except.map,
      Nat.add_assoc, Nat.add_comm, Nat.add_left_comm, Function.comp]

lemma prodLoop_err_eq (synth : ℕ → Except String AudioBuffer) (vf : SegIn → Option VoiceProfile)
    (b : ℕ → AudioBuffer) (e : String) :
    ∀ (segs : List SegIn) (i total : ℕ) (acc : ℚ) (k : ℕ),
      k < segs.length →
      (∀ j, j < k → synth (i + j) = Except.ok (b (i + j))) →
      synth (i + k) = Except.error e →
      (prodLoop synth vf segs i total acc).2 = Except.error e := by
  intro segs
  induction segs with
  | nil => intro i total acc k hk _ _; simp at hk
  | cons s rest ih =>
    intro i total acc k hk hok herr
    match k with
    | 0 =>
      have h0 : synth i = Except.error e := by simpa using herr
      simp [prodLoop, h0]
    | k + 1 =>
      have h0 : synth i = Except.ok (b i) := by simpa using hok 0 (Nat.succ_pos k)
      have hok' : ∀ j, j < k → synth ((i + 1) + j) = Except.ok (b ((i + 1) + j)) := by
        intro j hj
        have hx := hok (j + 1) (by omega)
        rwa [show i + (j + 1) = (i + 1) + j by omega] at hx
      have herr' : synth ((i + 1) + k) = Except.error e := by
        rwa [show i + (k + 1) = (i + 1) + k by omega] at herr
      have hrec := ih (i + 1) total (acc + (b i).dur) k
        (by simp only [List.length_cons] at hk; omega) hok' herr'
      simp [prodLoop, h0, hrec, Except.map]

lemma runProduction_ok_eq (inp : RunInput) (synth : ℕ → Except String AudioBuffer)
    (b : ℕ → AudioBuffer)
    (hall : ∀ j, j < inp.segments.length + 2 → synth j = Except.ok (b j)) :
    runProduction inp synth =
      ((List.range (inp.segments.length + 2)).flatMap
          (fun j => [RunEvent.progress (progressPercent j (inp.segments.length + 2)),
                     RunEvent.synthDone j])
        ++ [RunEvent.progress 95, RunEvent.progress 100],
       Except.ok
         { orderedSegments := mkOuts
             (fun s => resolveVoice ((audioRoutingOf inp.quality).model.provider == Provider.gemini)
               inp.speakerVoiceMap s.speaker) b (allSegmentsOf inp) 0 0,
           buffers := (List.range (inp.segments.length + 2)).map b
             ++ (if inp.tier = UserTier.FREE then [createWatermarkBuffer] else []),
           master := concatenateAudioBuffers
             ((List.range (inp.segments.length + 2)).map b
               ++ (if inp.tier = UserTier.FREE then [createWatermarkBuffer] else [])),
           blob :=
             if inp.exportFormat = ExportFormat.MP3 ∨ inp.exportFormat = ExportFormat.OGG then
               audioBufferToMp3 (concatenateAudioBuffers
                 ((List.range (inp.segments.length + 2)).map b
                   ++ (if inp.tier = UserTier.FREE then [createWatermarkBuffer] else [])))
             else
               audioBufferToWav (concatenateAudioBuffers
                 ((List.range (inp.segments.length + 2)).map b
                   ++ (if inp.tier = UserTier.FREE then [createWatermarkBuffer] else []))),
           srtSegments := mkOuts
             (fun s => resolveVoice ((audioRoutingOf inp.quality).model.provider == Provider.gemini)
               inp.speakerVoiceMap s.speaker) b (allSegmentsOf inp) 0 0 }) := by
  have hlen : (allSegmentsOf inp).length = inp.segments.length + 2 := by
    simp [allSegmentsOf]
  have hall' : ∀ j, j < (allSegmentsOf inp).length → synth (0 + j) = Except.ok (b (0 + j)) := by
    intro j hj
    rw [hlen] at hj
    simpa using hall j hj
  have hloop := prodLoop_ok_eq synth
    (fun s => resolveVoice ((audioRoutingOf inp.quality).model.provider == Provider.gemini)
      inp.speakerVoiceMap s.speaker) b (allSegmentsOf inp) 0 (allSegmentsOf inp).length 0 hall'
  unfold runProduction
  rw [selectModel_audio inp.quality inp.apiKeys]
  dsimp only
  rw [hloop, hlen]
  simp [Nat.zero_add]
  by_cases ht : inp.tier = UserTier.FREE <;> simp [ht]

/-- C1 counterexample: an error whose `message` carries the
`RESOURCE_EXHAUSTED` marker but whose JSON serialization (as for a JS `Error`
instance) is `"{}"` is not classified retryable by the code — with the full
retry budget remaining it propagates immediately with zero delays, although
the claim's classification ("message or JSON serialization contains '429' or
'RESOURCE_EXHAUSTED'") calls it retryable. -/
theorem retry_resource_exhausted_message_cex :
    strIncludes (exhaustedMsgErr.message.getD "") "RESOURCE_EXHAUSTED" = true ∧
    isRateLimit exhaustedMsgErr = false ∧
    GeminiService.withRetry (fun _ => (CallResult.err exhaustedMsgErr : CallResult ℕ)) 0 3 2000
      = ([], CallResult.err exhaustedMsgErr) := by
  refine ⟨by decide, by decide, rfl⟩

/-- C1 (amended): with retryability as the code classifies it — the message
contains `429`, or the serialized form contains `429` or `RESOURCE_EXHAUSTED`
— the default-configured retry wrapper (3 retries, 2000 ms base delay):
propagates a non-retryable failure immediately with zero delays; on a
retryable failure with retries remaining sleeps the current delay, doubles
it, and retries; after the budget is exhausted propagates the last error
unchanged (three delays 2000, 4000, 8000); and for a call failing retryably
twice then succeeding observes exactly the two delays 2000 and 4000 and
returns the success value. -/
theorem retry_policy_spec {α : Type} (fn : ℕ → CallResult α) :
    (∀ e, fn 0 = CallResult.err e → isRateLimit e = false →
      GeminiService.withRetry fn 0 3 2000 = ([], CallResult.err e))
    ∧ (∀ a r d e, fn a = CallResult.err e → isRateLimit e = true →
      GeminiService.withRetry fn a (r + 1) d
        = (d :: (GeminiService.withRetry fn (a + 1) r (d * 2)).1,
           (GeminiService.withRetry fn (a + 1) r (d * 2)).2))
    ∧ (∀ es : ℕ → GError,
        (∀ i, i ≤ 3 → fn i = CallResult.err (es i) ∧ isRateLimit (es i) = true) →
        GeminiService.withRetry fn 0 3 2000 = ([2000, 4000, 8000], CallResult.err (es 3)))
    ∧ (∀ e₀ e₁ v, fn 0 = CallResult.err e₀ → isRateLimit e₀ = true →
        fn 1 = CallResult.err e₁ → isRateLimit e₁ = true → fn 2 = CallResult.ok v →
        GeminiService.withRetry fn 0 3 2000 = ([2000, 4000], CallResult.ok v)) := by
  refine ⟨?_, ?_, ?_, ?_⟩
  · intro e h0 hrl
    simp [GeminiService.withRetry, h0, hrl]
  · intro a r d e h hrl
    conv_lhs => rw [GeminiService.withRetry]
    simp [h, hrl]
  · intro es hes
    have h0 := (hes 0 (by omega)).1
    have h1 := (hes 1 (by omega)).1
    have h2 := (hes 2 (by omega)).1
    have h3 := (hes 3 (by omega)).1
    have r0 := (hes 0 (by omega)).2
    have r1 := (hes 1 (by omega)).2
    have r2 := (hes 2 (by omega)).2
    have r3 := (hes 3 (by omega)).2
    simp [GeminiService.withRetry, h0, h1, h2, h3, r0, r1, r2, r3]
  · intro e₀ e₁ v h0 r0 h1 r1 h2
    simp [GeminiService.withRetry, h0, h1, h2, r0, r1]

/-- C1 witness: a call failing rate-limited twice then succeeding observes
delays 2000 then 4000 and returns the success value. -/
theorem retry_policy_spec_witness :
    GeminiService.withRetry exCalls 0 3 2000 = ([2000, 4000], CallResult.ok 7) :=
  (retry_policy_spec exCalls).2.2.2 rlErr rlErr 7 rfl (by decide) rfl (by decide) rfl

/-- C2: `ModelRouter.selectModel` is a pure decision function — two calls with
equal task and credential arguments return identical routing decisions (the
embedding is stateless, so the result depends on the arguments alone). -/
theorem selectModel_deterministic (t₁ t₂ : Task) (k₁ k₂ : UserApiKeys)
    (ht : t₁ = t₂) (hk : k₁ = k₂) :
    ModelRouter.selectModel t₁ k₁ = ModelRouter.selectModel t₂ k₂ := by
  rw [ht, hk]

/-- C2 witness: two identical calls at a concrete task and credential set. -/
theorem selectModel_deterministic_witness :
    ModelRouter.selectModel
        { type := TaskType.script_generation, quality := Quality.balanced,
          requiresReasoning := false }
        { pollinationsKey := some "pk", openaiKey := Option.none, mistralKey := Option.none }
      = ModelRouter.selectModel
        { type := TaskType.script_generation, quality := Quality.balanced,
          requiresReasoning := false }
        { pollinationsKey := some "pk", openaiKey := Option.none, mistralKey := Option.none } :=
  selectModel_deterministic _ _ _ _ rfl rfl

/-- C3 counterexample: a balanced script-generation request with
`requiresReasoning` set and a paid credential present returns the premium
reasoning model `gemini-3-pro-preview`, not `pollinations-script-paid` — the
claim fails when quantified over the `requiresReasoning` flag. -/
theorem balanced_reasoning_cex :
    truthy (some "pk") = true ∧
    Except.map RoutingDecision.modelId
        (ModelRouter.selectModel
          { type := TaskType.script_generation, quality := Quality.balanced,
            requiresReasoning := true }
          { pollinationsKey := some "pk", openaiKey := Option.none, mistralKey := Option.none })
      = Except.ok "gemini-3-pro-preview" ∧
    ("gemini-3-pro-preview" : String) ≠ "pollinations-script-paid" := by
  refine ⟨rfl, rfl, by decide⟩

/-- C3 (amended): for a balanced script-generation request with
`requiresReasoning` false (or unset), `selectModel` returns the paid mid-tier
model (`pollinations-script-paid`, cost 0.002) iff a paid credential is
present (non-empty `pollinationsKey`), and the free-tier model
(`pollinations-script-free`, cost 0) otherwise. -/
theorem balanced_without_reasoning_routes_by_key (keys : UserApiKeys) :
    ModelRouter.selectModel
        { type := TaskType.script_generation, quality := Quality.balanced,
          requiresReasoning := false } keys
      = Except.ok
          (if truthy keys.pollinationsKey then
            { modelId := "pollinations-script-paid", model := pollinations_script_paid,
              reason := "Utilizing Pollinations GPT-4o for balanced production",
              estimatedCost := 1/500 }
          else
            { modelId := "pollinations-script-free", model := pollinations_script_free,
              reason := "Standard fast script generation (Free tier)",
              estimatedCost := 0 }) := by
  cases h : truthy keys.pollinationsKey <;> simp [ModelRouter.selectModel, h]

/-- C4: `selectModel` never fails on the three defined task kinds — for every
quality, reasoning flag and credential set it returns a routing decision —
while an unrecognized task kind fails with the `Unsupported task` error. -/
theorem selectModel_total_on_defined_kinds (q : Quality) (rr : Bool) (keys : UserApiKeys)
    (s : String) :
    (∃ d, ModelRouter.selectModel
        { type := TaskType.script_generation, quality := q, requiresReasoning := rr } keys
      = Except.ok d)
    ∧ (∃ d, ModelRouter.selectModel
        { type := TaskType.image_generation, quality := q, requiresReasoning := rr } keys
      = Except.ok d)
    ∧ (∃ d, ModelRouter.selectModel
        { type := TaskType.audio_synthesis, quality := q, requiresReasoning := rr } keys
      = Except.ok d)
    ∧ ModelRouter.selectModel
        { type := TaskType.other s, quality := q, requiresReasoning := rr } keys
      = Except.error ("Unsupported task: " ++ s) := by
  refine ⟨?_, ?_, ?_, ?_⟩
  · cases q <;> cases rr <;> cases h : truthy keys.pollinationsKey <;>
      simp [ModelRouter.selectModel, h]
  · cases q <;> cases h : truthy keys.pollinationsKey <;>
      simp [ModelRouter.selectModel, h]
  · cases q <;> simp [ModelRouter.selectModel]
  · simp [ModelRouter.selectModel, TaskType.str]

lemma except_map_map {ε α β γ : Type} (f : α → β) (g : β → γ) (x : Except ε α) :
    Except.map g (Except.map f x) = Except.map (fun a => g (f a)) x := by
  cases x <;> rfl

lemma except_map_eq_ok {ε α β : Type} (f : α → β) (x : Except ε α) (b : β)
    (h : Except.map f x = Except.ok b) : ∃ a, x = Except.ok a ∧ b = f a := by
  cases x with
  | error e => simp [Except.map] at h
  | ok a => exact ⟨a, rfl, by simpa [Except.map] using h.symm⟩

lemma runProduction_snd (inp : RunInput) (synth : ℕ → Except String AudioBuffer) :
    (runProduction inp synth).2 =
      Except.map
        (fun ob : List SegOut × List AudioBuffer =>
          { orderedSegments := ob.1,
            buffers := if inp.tier = UserTier.FREE then ob.2 ++ [createWatermarkBuffer] else ob.2,
            master := concatenateAudioBuffers
              (if inp.tier = UserTier.FREE then ob.2 ++ [createWatermarkBuffer] else ob.2),
            blob :=
              if inp.exportFormat = ExportFormat.MP3 ∨ inp.exportFormat = ExportFormat.OGG then
                audioBufferToMp3 (concatenateAudioBuffers
                  (if inp.tier = UserTier.FREE then ob.2 ++ [createWatermarkBuffer] else ob.2))
              else
                audioBufferToWav (concatenateAudioBuffers
                  (if inp.tier = UserTier.FREE then ob.2 ++ [createWatermarkBuffer] else ob.2)),
            srtSegments := ob.1 })
        (prodLoop synth
          (fun s => resolveVoice ((audioRoutingOf inp.quality).model.provider == Provider.gemini)
            inp.speakerVoiceMap s.speaker)
          (allSegmentsOf inp) 0 (allSegmentsOf inp).length 0).2 := by
  unfold runProduction
  rw [selectModel_audio inp.quality inp.apiKeys]
  dsimp only
  cases hX : (prodLoop synth
      (fun s => resolveVoice ((audioRoutingOf inp.quality).model.provider == Provider.gemini)
        inp.speakerVoiceMap s.speaker)
      (allSegmentsOf inp) 0 (allSegmentsOf inp).length 0).2 <;>
    simp [hX, Except.map]

/-- C5: any segment synthesis failure — intro, script segment or outro —
aborts the run with the propagated error: the run returns only the error, so
no audio URL, encoded byte stream or subtitle document is ever produced, and
the buffers accumulated before the failure are discarded (the success record
that would carry them is never built). -/
theorem production_abort_on_failure (inp : RunInput) (synth : ℕ → Except String AudioBuffer)
    (b : ℕ → AudioBuffer) (e : String) (k : ℕ)
    (hk : k < inp.segments.length + 2)
    (hok : ∀ j, j < k → synth j = Except.ok (b j))
    (herr : synth k = Except.error e) :
    (runProduction inp synth).2 = Except.error e := by
  have hlen : (allSegmentsOf inp).length = inp.segments.length + 2 := by
    simp [allSegmentsOf]
  have hk' : k < (allSegmentsOf inp).length := by rw [hlen]; exact hk
  have hok' : ∀ j, j < k → synth (0 + j) = Except.ok (b (0 + j)) := by
    intro j hj; simpa using hok j hj
  have herr' : synth (0 + k) = Except.error e := by simpa using herr
  have hp := prodLoop_err_eq synth
    (fun s => resolveVoice ((audioRoutingOf inp.quality).model.provider == Provider.gemini)
      inp.speakerVoiceMap s.speaker) b e
    (allSegmentsOf inp) 0 (allSegmentsOf inp).length 0 k hk' hok' herr'
  rw [runProduction_snd inp synth, hp]
  rfl

/-- C5 witness: a run whose very first (intro) synthesis fails returns exactly
that error and no artifact. -/
theorem production_abort_on_failure_witness :
    (runProduction exInput exSynthFail).2
      = Except.error "Synthesis produced no audio payload." :=
  production_abort_on_failure exInput exSynthFail exBuf
    "Synthesis produced no audio payload." 0 (by decide)
    (fun j hj => absurd hj (Nat.not_lt_zero j)) rfl

/-- C6: in a fully successful run, the ordered segment list (intro, script
segments in order, outro) has each segment's `duration` equal to its
synthesized buffer's duration and each `startTime` equal to the sum of the
durations of all preceding segments in that order (intro included); the
buffer list handed to concatenation carries the synthesized buffers in the
same order (followed by the watermark on the FREE tier).  Fields exist only
in the success record, i.e. only once every synthesis has completed. -/
theorem production_segment_timing (inp : RunInput) (synth : ℕ → Except String AudioBuffer)
    (b : ℕ → AudioBuffer)
    (hall : ∀ j, j < inp.segments.length + 2 → synth j = Except.ok (b j)) :
    ∃ r, (runProduction inp synth).2 = Except.ok r ∧
      r.orderedSegments.length = inp.segments.length + 2 ∧
      (∀ k, k < inp.segments.length + 2 →
        (r.orderedSegments.getD k dummySegOut).duration = (b k).dur ∧
        (r.orderedSegments.getD k dummySegOut).startTime
          = ((r.orderedSegments.take k).map (fun o => o.duration)).sum) ∧
      r.buffers = (List.range (inp.segments.length + 2)).map b
        ++ (if inp.tier = UserTier.FREE then [createWatermarkBuffer] else []) := by
  have hrun := runProduction_ok_eq inp synth b hall
  have hlen : (allSegmentsOf inp).length = inp.segments.length + 2 := by
    simp [allSegmentsOf]
  refine ⟨_, by rw [hrun], ?_, ?_, rfl⟩
  · dsimp only
    rw [mkOuts_length, hlen]
  · intro k hk
    have hk' : k < (allSegmentsOf inp).length := by rw [hlen]; exact hk
    have h := mkOuts_getD
      (fun s => resolveVoice ((audioRoutingOf inp.quality).model.provider == Provider.gemini)
        inp.speakerVoiceMap s.speaker) b (allSegmentsOf inp) 0 0 k hk'
    constructor
    · simpa using h.1
    · simpa using h.2

/-- C6 witness: the timing invariants at a concrete one-segment run. -/
theorem production_segment_timing_witness :
    ∃ r, (runProduction exInput exSynth).2 = Except.ok r ∧
      r.orderedSegments.length = exInput.segments.length + 2 ∧
      (∀ k, k < exInput.segments.length + 2 →
        (r.orderedSegments.getD k dummySegOut).duration = (exBuf k).dur ∧
        (r.orderedSegments.getD k dummySegOut).startTime
          = ((r.orderedSegments.take k).map (fun o => o.duration)).sum) ∧
      r.buffers = (List.range (exInput.segments.length + 2)).map exBuf
        ++ (if exInput.tier = UserTier.FREE then [createWatermarkBuffer] else []) :=
  production_segment_timing exInput exSynth exBuf (fun _ _ => rfl)

/-- C7: in a successful run the buffer list passed to concatenation is the
synthesized script content followed by the fixed watermark buffer exactly
when the tier is FREE (no watermark for PRO/ENTERPRISE); the watermark, when
present, is the final element, after all script content and before encoding
(the blob encodes the concatenation of that very list).  The script prefix
does not mention the tier, so watermark presence is a function of tier
alone. -/
theorem production_watermark_iff_free (inp : RunInput) (synth : ℕ → Except String AudioBuffer)
    (b : ℕ → AudioBuffer)
    (hall : ∀ j, j < inp.segments.length + 2 → synth j = Except.ok (b j)) :
    ∃ r, (runProduction inp synth).2 = Except.ok r ∧
      r.buffers = (List.range (inp.segments.length + 2)).map b
        ++ (if inp.tier = UserTier.FREE then [createWatermarkBuffer] else []) ∧
      r.master = concatenateAudioBuffers r.buffers ∧
      r.blob = (if inp.exportFormat = ExportFormat.MP3 ∨ inp.exportFormat = ExportFormat.OGG
        then audioBufferToMp3 r.master else audioBufferToWav r.master) := by
  have hrun := runProduction_ok_eq inp synth b hall
  exact ⟨_, by rw [hrun], rfl, rfl, rfl⟩

/-- C7 witness: the watermark equation at a concrete FREE-tier run. -/
theorem production_watermark_iff_free_witness :
    ∃ r, (runProduction exInput exSynth).2 = Except.ok r ∧
      r.buffers = (List.range (exInput.segments.length + 2)).map exBuf
        ++ (if exInput.tier = UserTier.FREE then [createWatermarkBuffer] else []) ∧
      r.master = concatenateAudioBuffers r.buffers ∧
      r.blob = (if exInput.exportFormat = ExportFormat.MP3 ∨ exInput.exportFormat = ExportFormat.OGG
        then audioBufferToMp3 r.master else audioBufferToWav r.master) :=
  production_watermark_iff_free exInput exSynth exBuf (fun _ _ => rfl)

/-- C9: in a successful run the trace is, per segment index `c` of the full
ordered list (intro and outro included, `total = segments + 2`), a progress
report parameterized by exactly (`c` completed segments, `total`) followed by
that segment's synthesis — so each report is emitted once all `c` prior
segments completed — and then the 95% mastering and 100% completion reports;
the reported percent is the fraction completed/total mapped to the 90%
synthesis band and rounded, `⌊90·c/t + 1/2⌋`. -/
theorem production_progress_reports (inp : RunInput) (synth : ℕ → Except String AudioBuffer)
    (b : ℕ → AudioBuffer)
    (hall : ∀ j, j < inp.segments.length + 2 → synth j = Except.ok (b j)) :
    ((runProduction inp synth).1
      = ((List.range (inp.segments.length + 2)).flatMap
          (fun c => [RunEvent.progress (progressPercent c (inp.segments.length + 2)),
                     RunEvent.synthDone c]))
        ++ [RunEvent.progress 95, RunEvent.progress 100])
    ∧ (∀ c t : ℕ, 0 < t →
        progressPercent c t = ⌊90 * (c : ℚ) / (t : ℚ) + 1/2⌋₊) := by
  constructor
  · rw [runProduction_ok_eq inp synth b hall]
  · intro c t ht
    have ht' : (t : ℚ) ≠ 0 := Nat.cast_ne_zero.mpr (by omega)
    have key : 90 * (c : ℚ) / (t : ℚ) + 1/2 = ((180 * c + t : ℕ) : ℚ) / ((2 * t : ℕ) : ℚ) := by
      push_cast
      field_simp
      ring
    rw [key, Nat.floor_div_nat, Nat.floor_natCast]
    rfl

/-- C9 witness: the trace of a concrete successful run. -/
theorem production_progress_reports_witness :
    (runProduction exInput exSynth).1
      = ((List.range (exInput.segments.length + 2)).flatMap
          (fun c => [RunEvent.progress (progressPercent c (exInput.segments.length + 2)),
                     RunEvent.synthDone c]))
        ++ [RunEvent.progress 95, RunEvent.progress 100] :=
  (production_progress_reports exInput exSynth exBuf (fun _ _ => rfl)).1

/-- C10: the export-format branch sends both `MP3` and `OGG` to the same MP3
encoder, so for identical inputs the OGG and MP3 runs produce identical
encoded blobs; only `WAV` selects the PCM/WAV encoder. -/
theorem ogg_mp3_blob_identical (inp : RunInput) (synth : ℕ → Except String AudioBuffer) :
    (Except.map (fun r => r.blob)
        (runProduction { inp with exportFormat := ExportFormat.OGG } synth).2
      = Except.map (fun r => r.blob)
        (runProduction { inp with exportFormat := ExportFormat.MP3 } synth).2)
    ∧ (∀ r, (runProduction { inp with exportFormat := ExportFormat.OGG } synth).2
        = Except.ok r → r.blob = audioBufferToMp3 r.master)
    ∧ (∀ r, (runProduction { inp with exportFormat := ExportFormat.WAV } synth).2
        = Except.ok r → r.blob = audioBufferToWav r.master) := by
  have hOGG := runProduction_snd { inp with exportFormat := ExportFormat.OGG } synth
  have hMP3 := runProduction_snd { inp with exportFormat := ExportFormat.MP3 } synth
  have hWAV := runProduction_snd { inp with exportFormat := ExportFormat.WAV } synth
  dsimp only at hOGG hMP3 hWAV
  refine ⟨?_, ?_, ?_⟩
  · rw [hOGG, hMP3, except_map_map, except_map_map]
    simp [allSegmentsOf]
  · intro r h
    rw [hOGG] at h
    obtain ⟨ob, hX, hr⟩ := except_map_eq_ok _ _ _ h
    subst hr
    simp
  · intro r h
    rw [hWAV] at h
    obtain ⟨ob, hX, hr⟩ := except_map_eq_ok _ _ _ h
    subst hr
    simp

/-- C10 witness: the OGG and MP3 blobs agree at a concrete run. -/
theorem ogg_mp3_blob_identical_witness :
    Except.map (fun r => r.blob)
        (runProduction { exInput with exportFormat := ExportFormat.OGG } exSynth).2
      = Except.map (fun r => r.blob)
        (runProduction { exInput with exportFormat := ExportFormat.MP3 } exSynth).2 :=
  (ogg_mp3_blob_identical exInput exSynth).1

/-- C8: the run's voice resolution agrees step for step with the
specification's procedure — family restriction by the routing decision's
provider, explicit mapping when it belongs to the restricted list, first
case-insensitive display-name match on the speaker label, then the first
restricted candidate — and whenever the restricted family has at least one
candidate a voice is resolved. -/
theorem voice_resolution_follows_spec (g : Bool) (m : List (String × String)) (s : String) :
    resolveVoice g m s = specVoiceResolution g m s ∧
    (VOICES.filter (fun v => v.engine == (if g then TTSEngine.GEMINI else TTSEngine.BROWSER)) ≠ []
      → (resolveVoice g m s).isSome = true) := by
  constructor
  · simp only [resolveVoice, specVoiceResolution]
    rw [find?_filter_eq, find?_filter_eq]
  · intro hne
    simp only [resolveVoice]
    split
    · rfl
    · split
      · rfl
      · rcases hl : VOICES.filter
            (fun v => v.engine == (if g then TTSEngine.GEMINI else TTSEngine.BROWSER)) with
          _ | ⟨a, t⟩
        · exact absurd hl hne
        · simp [hl]

/-- C8 witness: resolution succeeds at a concrete speaker and mapping. -/
theorem voice_resolution_follows_spec_witness :
    (resolveVoice true [("Host", "pro-1")] "Host").isSome = true :=
  (voice_resolution_follows_spec true [("Host", "pro-1")] "Host").2 (by decide)

/-- C3 witness: with a paid credential present, a balanced no-reasoning
request selects the paid mid-tier model. -/
theorem balanced_without_reasoning_routes_by_key_witness :
    ModelRouter.selectModel
        { type := TaskType.script_generation, quality := Quality.balanced,
          requiresReasoning := false }
        { pollinationsKey := some "pk", openaiKey := Option.none, mistralKey := Option.none }
      = Except.ok
          { modelId := "pollinations-script-paid", model := pollinations_script_paid,
            reason := "Utilizing Pollinations GPT-4o for balanced production",
            estimatedCost := 1/500 } := by
  have h := balanced_without_reasoning_routes_by_key
    { pollinationsKey := some "pk", openaiKey := Option.none, mistralKey := Option.none }
  simpa [truthy] using h

/-- C4 witness: a defined task kind at concrete arguments yields a decision. -/
theorem selectModel_total_on_defined_kinds_witness :
    ∃ d, ModelRouter.selectModel
        { type := TaskType.audio_synthesis, quality := Quality.fast, requiresReasoning := false }
        { pollinationsKey := Option.none, openaiKey := Option.none, mistralKey := Option.none }
      = Except.ok d :=
  (selectModel_total_on_defined_kinds Quality.fast false
    { pollinationsKey := Option.none, openaiKey := Option.none, mistralKey := Option.none }
    "video_generation").2.2.1

end PodcastStudio
